import Mathlib

/-
Verification of the Acquisition and Invocation Orchestrator of the
audio-to-text repository, shallowly embedded from
src/transcription/transcribe.js.  Host interactions (filesystem probes,
subprocess exits, HTTP responses) are passed in as explicit oracle
arguments; every function mirrors the control flow and the literal error
messages of the JavaScript source.
-/

namespace Transcribe

/-- Host platform, as reported by os.platform() in the source. -/
inductive Platform
  | darwin
  | win32
  | linux
deriving DecidableEq, Repr

/-- Current engine binary name (transcribe.js line 84). -/
def newBinaryName (p : Platform) : String :=
  if p = Platform.win32 then "whisper-cli.exe" else "whisper-cli"

/-- Legacy engine binary name (transcribe.js line 85). -/
def legacyBinaryName (p : Platform) : String :=
  if p = Platform.win32 then "whisper.exe" else "main"

/-- Name of the model artifact, the MODEL_NAME global of transcribe.js. -/
def MODEL_NAME : String := "ggml-base.en.bin"

/-- Result of the binary-name resolution in initializePaths: the chosen
binary name inside the engine directory and the message logged for the
choice (transcribe.js lines 91 to 101). -/
structure BinaryChoice where
  binaryName : String
  logMsg : String
deriving DecidableEq, Repr

/-- Binary-name resolution of initializePaths (transcribe.js lines 91 to
101), as a function of which of the two name variants exist on disk.  The
function is total: when neither variant exists it defaults to the current
name, it never fails. -/
def resolveBinary (p : Platform) (newExists legacyExists : Bool) : BinaryChoice :=
  if newExists then
    { binaryName := newBinaryName p
      logMsg := "Using new binary name: " ++ newBinaryName p }
  else if legacyExists then
    { binaryName := legacyBinaryName p
      logMsg := "Using legacy binary name: " ++ legacyBinaryName p ++
        ", please note that legacy names will be deprecated" }
  else
    { binaryName := newBinaryName p
      logMsg := "No existing binary found, using new binary name: " ++ newBinaryName p }

/-! ### Direct model download with redirect handling -/

/-- One HTTP response in the chain seen by downloadWithRedirects:
a redirect status (301, 302, 307 or 308) carrying an optional location
header, a 200 response whose body is streamed to the file, or any other
status code. -/
inductive HttpResp
  | redirect (location : Option String)
  | success
  | failCode (code : Nat)
deriving DecidableEq, Repr

/-- The makeRequest recursion inside downloadWithRedirects (transcribe.js
lines 439 to 493), processed over the chain of responses the server
issues.  The first component records whether the response body was written
to the destination file (the 200 branch creates the write stream; every
rejecting branch returns before creating it).  An empty chain models the
request erroring at the socket level (the reject on the error event). -/
def makeRequest : List HttpResp → Nat → Nat → Bool × Except String Unit
  | [], _, _ => (false, Except.error "request error")
  | HttpResp.redirect loc :: rest, redirectCount, maxRedirects =>
      if maxRedirects ≤ redirectCount then
        (false, Except.error ("Too many redirects (" ++ toString redirectCount ++ ")"))
      else
        match loc with
        | none => (false, Except.error "Redirect with no location header")
        | some _ => makeRequest rest (redirectCount + 1) maxRedirects
  | HttpResp.success :: _, _, _ => (true, Except.ok ())
  | HttpResp.failCode c :: _, _, _ =>
      (false, Except.error ("Download failed with status code: " ++ toString c))

/-- downloadWithRedirects (transcribe.js line 435): starts the recursion
with redirectCount 0 and the default maxRedirects of 5. -/
def downloadWithRedirects (chain : List HttpResp) : Bool × Except String Unit :=
  makeRequest chain 0 5

/-- downloadModelDirect (transcribe.js lines 428 to 514): performs the
redirect-following download to a temp path, then validates that the temp
file exists and has size at least 1000000 bytes before copying it into
MODEL_PATH.  The Bool component records whether the copy into MODEL_PATH
happened.  tempExists and tempSize describe the temp file the download
left behind. -/
def downloadModelDirect (chain : List HttpResp) (tempExists : Bool) (tempSize : Nat) :
    Bool × Except String Unit :=
  match (downloadWithRedirects chain).2 with
  | Except.error e => (false, Except.error e)
  | Except.ok _ =>
      if tempExists = false ∨ tempSize < 1000000 then
        (false, Except.error "Downloaded file is too small or doesn\x27t exist")
      else
        (true, Except.ok ())

set_option linter.unusedVariables false in
/-- downloadModelWithPythonScript (transcribe.js lines 518 to 547): checks
that the whisper directory and the download script exist, runs the script,
checks that the downloaded model file exists, and copies it into
MODEL_PATH.  The Bool component records whether the copy into MODEL_PATH
happened.  The size of the downloaded file is passed as an argument to
make explicit that the source performs no size check on this path: the
definition does not mention modelFileSize. -/
def downloadModelWithPythonScript (whisperDirExists scriptExists : Bool)
    (scriptRun : Except String Unit) (modelFileExists : Bool) (modelFileSize : Nat) :
    Bool × Except String Unit :=
  if whisperDirExists = false then
    (false, Except.error "Whisper directory not found")
  else if scriptExists = false then
    (false, Except.error "Download script not found")
  else
    match scriptRun with
    | Except.error e => (false, Except.error e)
    | Except.ok _ =>
        if modelFileExists = false then
          (false, Except.error "Model download completed but file not found")
        else
          (true, Except.ok ())

/-! ### Model download retry loop -/

/-- The two download strategies of downloadWhisperModel. -/
inductive DlStrategy
  | direct
  | python
deriving DecidableEq, Repr

/-- maxRetries of downloadWhisperModel (transcribe.js line 391). -/
def maxRetries : Nat := 3

/-- Strategy chosen at a given attempt number (transcribe.js lines 399 to
405): attempt 1 tries the direct download, later attempts the python
script. -/
def strategyFor (attempt : Nat) : DlStrategy :=
  if attempt == 1 then DlStrategy.direct else DlStrategy.python

/-- Trace of the retry loop: the attempts made, in order, with the
strategy each used, and the waits (in milliseconds) inserted between
consecutive failed attempts. -/
structure DlTrace where
  attempts : List (Nat × DlStrategy)
  waits : List Nat
deriving DecidableEq, Repr

/-- Message of an optional JavaScript error: the expression
lastError?.message renders as the string undefined when lastError is
null. -/
def optMessage : Option String → String
  | none => "undefined"
  | some m => m

/-- The retry loop of downloadWhisperModel (transcribe.js lines 394 to
424), recursing over the remaining attempt numbers.  outcome gives the
result of running the chosen strategy at each attempt.  After a failure
of a non-final attempt the loop waits attempt times 1000 milliseconds
(line 416); when the attempt list is exhausted it fails with the message
of line 424. -/
def dlLoop (outcome : Nat → DlStrategy → Except String Unit) :
    List Nat → Option String → DlTrace → DlTrace × Except String Unit
  | [], lastError, tr =>
      (tr, Except.error ("Failed to download model after " ++ toString maxRetries ++
        " attempts: " ++ optMessage lastError))
  | attempt :: rest, _, tr =>
      let strat := strategyFor attempt
      let tr1 : DlTrace := { tr with attempts := tr.attempts ++ [(attempt, strat)] }
      match outcome attempt strat with
      | Except.ok _ => (tr1, Except.ok ())
      | Except.error e =>
          let tr2 : DlTrace :=
            if attempt < maxRetries then { tr1 with waits := tr1.waits ++ [attempt * 1000] }
            else tr1
          dlLoop outcome rest (some e) tr2

/-- downloadWhisperModel (transcribe.js lines 387 to 425).  The for loop
visits the attempt numbers 1 up to maxRetries, here the list [1, 2, 3]. -/
def downloadWhisperModel (outcome : Nat → DlStrategy → Except String Unit) :
    DlTrace × Except String Unit :=
  dlLoop outcome [1, 2, 3] none ⟨[], []⟩

/-! ### Dependency checker -/

/-- Process environment: the PATH variable, kept separate because the
checker mutates it, and every other variable. -/
structure ProcEnv where
  path : String
  other : List (String × String)
deriving DecidableEq, Repr

/-- Well-known macOS installation directories probed by checkDependencies
(transcribe.js line 153). -/
def macPaths (home : String) : List String :=
  ["/usr/local/bin", "/opt/homebrew/bin", "/usr/bin", "/opt/local/bin", home ++ "/bin"]

/-- The macOS fallback loop used for cmake, make and python3
(transcribe.js lines 169 to 177, 216 to 224 and 247 to 255): probe the
tool under each well-known directory in order; on the first success
prepend that directory to process.env.PATH and stop.  works is the
subprocess oracle: whether executing the given command string with a
version flag exits successfully. -/
def probeToolMac (works : String → Bool) (tool home : String) (env : ProcEnv) :
    Bool × ProcEnv :=
  match (macPaths home).find? (fun base => works (base ++ "/" ++ tool)) with
  | some base => (true, { env with path := base ++ ":" ++ env.path })
  | none => (false, env)

/-- checkDependencies on macOS (transcribe.js lines 137 to 290): probes
git, cmake, make and python, falling back to the well-known directories
for cmake, make and python3, and returns the final process environment
together with the list of missing dependencies.  The PATH mutations are
carried in the returned environment: the checker never undoes them (in
the source they live in process.env and outlive the call, even when the
missing list is non-empty and the function throws). -/
def checkDependenciesMac (works : String → Bool) (home : String) (env0 : ProcEnv) :
    ProcEnv × List String :=
  let missingGit : List String := if works "git" then [] else ["git"]
  let cmakeStep : Bool × ProcEnv :=
    if works "cmake" then (true, env0) else probeToolMac works "cmake" home env0
  let missingCmake := missingGit ++ (if cmakeStep.1 then [] else ["cmake"])
  let makeStep : Bool × ProcEnv :=
    if works "make" then (true, cmakeStep.2) else probeToolMac works "make" home cmakeStep.2
  let missingMake := missingCmake ++ (if makeStep.1 then [] else ["make"])
  let pyStep : Bool × ProcEnv :=
    if works "python3" || works "python" then (true, makeStep.2)
    else probeToolMac works "python3" home makeStep.2
  let missingPy := missingMake ++ (if pyStep.1 then [] else ["python3"])
  (pyStep.2, missingPy)

/-! ### Build stage -/

/-- The two acceptable binary names, current first (transcribe.js lines
550 to 553). -/
def binaryNames (p : Platform) : List String :=
  [newBinaryName p, legacyBinaryName p]

/-- Candidate output locations searched for the built binary
(transcribe.js lines 556 to 564).  path.join is modelled as concatenation
with a slash. -/
def possibleLocations (buildDir whisperDir : String) (p : Platform) : List String :=
  [buildDir, whisperDir,
   buildDir ++ "/" ++ (if p = Platform.win32 then "Release" else "."),
   buildDir ++ "/bin",
   buildDir ++ "/examples/cli",
   buildDir ++ "/examples/main",
   buildDir ++ "/examples/whisper-cli"]

/-- findAndCopyBinary (transcribe.js lines 549 to 627): for each binary
name, current first, scan the candidate locations and copy the first
match into the engine directory.  When nothing is found, the deep search
at line 595 calls findBinary, a name that is not defined anywhere in
transcribe.js (it exists only as local functions of other modules), so
in JavaScript the evaluation throws
ReferenceError: findBinary is not defined; the embedding reflects that
as an error.  fileAt is the filesystem oracle for fs.existsSync. -/
def findAndCopyBinary (fileAt : String → Bool) (buildDir whisperDir : String)
    (p : Platform) : Except String Bool :=
  let found := (binaryNames p).findSome? (fun name =>
    ((possibleLocations buildDir whisperDir p).find?
        (fun loc => fileAt (loc ++ "/" ++ name))).map (fun loc => loc ++ "/" ++ name))
  match found with
  | some _ => Except.ok true
  | none => Except.error "findBinary is not defined"

/-- buildWhisper (transcribe.js lines 629 to 696): configure, compile,
then locate the built binary.  When findAndCopyBinary reports false, the
throw at line 688 interpolates possibleBinaryLocations, another name not
defined in transcribe.js, so in JavaScript that line itself throws
ReferenceError: possibleBinaryLocations is not defined.  Every error of
the body is wrapped by the catch at line 694 as Build failed followed by
the message. -/
def buildWhisper (configureResult compileResult : Except String Unit)
    (fileAt : String → Bool) (buildDir whisperDir : String) (p : Platform) :
    Except String Bool :=
  let body : Except String Bool :=
    match configureResult with
    | Except.error e => Except.error e
    | Except.ok _ =>
        match compileResult with
        | Except.error e => Except.error e
        | Except.ok _ =>
            match findAndCopyBinary fileAt buildDir whisperDir p with
            | Except.error e => Except.error e
            | Except.ok true => Except.ok true
            | Except.ok false => Except.error "possibleBinaryLocations is not defined"
  match body with
  | Except.ok v => Except.ok v
  | Except.error e => Except.error ("Build failed: " ++ e)

/-! ### Initialization -/

/-- Observable steps of initializeWhisper, in the order they run. -/
inductive InitAction
  | ensureDirs
  | binaryHelpProbe
  | downloadModel
  | removeInvalidSource
  | cloneSource
  | dependencyCheck
  | buildStep
deriving DecidableEq, Repr

/-- Environment oracle for initializeWhisper: the state of the filesystem
and the outcome of each external step, assumed stable across the call. -/
structure InitEnv where
  binaryExists : Bool
  helpProbe : Except String Unit
  modelExists : Bool
  downloadResult : Except String Unit
  sourceDirExists : Bool
  hasCMakeLists : Bool
  removeDirOk : Bool
  cloneResult : Except String Unit
  depCheckResult : Except String Unit
  buildResult : Except String Unit

/-- The source acquisition and build path of initializeWhisper
(transcribe.js lines 336 to 379): validate or purge the source
directory, clone if needed, optionally run the dependency check, build,
and finally download the model when it is missing or forced. -/
def initWhisperSourceStage (env : InitEnv) (forceDownload skipDependencyCheck : Bool)
    (acts : List InitAction) : List InitAction × Except String Bool :=
  let sourceCheck : List InitAction × Except String Bool :=
    if env.sourceDirExists then
      if env.hasCMakeLists then (acts, Except.ok true)
      else if env.removeDirOk then (acts ++ [InitAction.removeInvalidSource], Except.ok false)
      else (acts ++ [InitAction.removeInvalidSource],
        Except.error "Cannot prepare for source download. Please delete the directory manually.")
    else (acts, Except.ok false)
  match sourceCheck with
  | (acts1, Except.error e) => (acts1, Except.error e)
  | (acts1, Except.ok hasValidSource) =>
    let cloneStep : List InitAction × Except String Unit :=
      if hasValidSource then (acts1, Except.ok ())
      else (acts1 ++ [InitAction.cloneSource], env.cloneResult)
    match cloneStep with
    | (acts2, Except.error e) => (acts2, Except.error e)
    | (acts2, Except.ok _) =>
      let depStep : List InitAction × Except String Unit :=
        if skipDependencyCheck then (acts2, Except.ok ())
        else (acts2 ++ [InitAction.dependencyCheck], env.depCheckResult)
      match depStep with
      | (acts3, Except.error e) => (acts3, Except.error e)
      | (acts3, Except.ok _) =>
        let acts4 := acts3 ++ [InitAction.buildStep]
        match env.buildResult with
        | Except.error e => (acts4, Except.error e)
        | Except.ok _ =>
          if env.modelExists = false ∨ forceDownload = true then
            let acts5 := acts4 ++ [InitAction.downloadModel]
            match env.downloadResult with
            | Except.error e => (acts5, Except.error e)
            | Except.ok _ => (acts5, Except.ok true)
          else (acts4, Except.ok true)

/-- initializeWhisper (transcribe.js lines 298 to 384), named initWhisper
here.  When the binary exists, the inner try at lines 315 to 330 runs the
help probe and, when the model is missing or forceDownload is set, the
model download; ANY error of that try, a failed probe or a failed model
download alike, is caught at line 327 and control falls through to the
source and build path.  The returned list records the steps performed in
order. -/
def initWhisper (env : InitEnv) (forceDownload skipDependencyCheck : Bool) :
    List InitAction × Except String Bool :=
  let acts0 := [InitAction.ensureDirs]
  if env.binaryExists then
    let acts1 := acts0 ++ [InitAction.binaryHelpProbe]
    let innerTry : List InitAction × Except String Unit :=
      match env.helpProbe with
      | Except.error e => (acts1, Except.error e)
      | Except.ok _ =>
          if env.modelExists = false ∨ forceDownload = true then
            (acts1 ++ [InitAction.downloadModel], env.downloadResult)
          else (acts1, Except.ok ())
    match innerTry with
    | (acts2, Except.ok _) => (acts2, Except.ok true)
    | (acts2, Except.error _) => initWhisperSourceStage env forceDownload skipDependencyCheck acts2
  else
    initWhisperSourceStage env forceDownload skipDependencyCheck acts0

/-! ### Transcription pipeline -/

/-- Contents of the temp directory used by transcribeVideo, as an
association of file names to file contents. -/
abbrev FileStore : Type := List (String × String)

/-- fs.existsSync on the temp directory. -/
def fsExists (store : FileStore) (name : String) : Bool :=
  (List.lookup name store).isSome

/-- fs.readFileSync on the temp directory. -/
def fsRead (store : FileStore) (name : String) : String :=
  (List.lookup name store).getD ""

/-- fs.copyFileSync or a write into the temp directory: the new entry
shadows any previous entry of the same name. -/
def fsWrite (store : FileStore) (name content : String) : FileStore :=
  (name, content) :: store

/-- fs.unlinkSync on the temp directory. -/
def fsRemove (store : FileStore) (name : String) : FileStore :=
  List.filter (fun p => p.1 != name) store

/-- Environment oracle for transcribeVideo: outcome of the readiness
check, of the ffmpeg extraction, of the engine subprocess, the files the
engine leaves in the temp directory, and whether each unlink of the
cleanup step fails. -/
structure TranscribeEnv where
  initResult : Except String Bool
  ffmpegResult : Except String Unit
  audioCreated : Bool
  engineResult : Except String Unit
  engineWrites : FileStore
  unlinkOutputFails : Bool
  unlinkAudioFails : Bool

/-- Name of the temp audio file (transcribe.js lines 723 to 725):
basename, a dash, the timestamp rendered in decimal, and the wav
extension.  The timestamp is carried as its decimal string. -/
def audioFileName (baseName timestamp : String) : String :=
  baseName ++ "-" ++ timestamp ++ ".wav"

/-- The ordered list of alternative transcript locations probed when the
expected output file is absent (transcribe.js lines 863 to 869).  The
first entry, path.basename of the audio path plus txt, coincides with the
second by construction of the audio file name; the source lists both. -/
def altOutputPaths (audioFile baseName timestamp : String) : List String :=
  [audioFile ++ ".txt",
   baseName ++ "-" ++ timestamp ++ ".wav.txt",
   baseName ++ ".txt",
   baseName ++ ".wav.txt",
   "transcript.txt"]

/-- Result of a transcribeVideo call: the final contents of the temp
directory, the cleanup warnings logged, and the returned value or thrown
error.  The returned value pairs the transcript with the model name. -/
structure TranscribeOutcome where
  store : FileStore
  warns : List String
  result : Except String (String × String)

/-- Body of the outer try of transcribeVideo (transcribe.js lines 704 to
903): readiness check, audio extraction, engine invocation, output
recovery, transcript read, and the cleanup of lines 892 to 898.  Cleanup
runs only on this success path; every thrown error leaves the temp
directory as it stands at the throw.  A failed unlink is caught at line
896, logged as a warning and not escalated; the unlink of the audio file
runs only when the unlink of the output file succeeded, both being inside
the same try. -/
def transcribeVideoCore (env : TranscribeEnv) (baseName timestamp : String) :
    TranscribeOutcome :=
  match env.initResult with
  | Except.error e => ⟨[], [], Except.error e⟩
  | Except.ok isInitialized =>
    if isInitialized = false then ⟨[], [], Except.error "Failed to initialize Whisper.cpp"⟩
    else
      let audioFile := audioFileName baseName timestamp
      let store1 : FileStore := if env.audioCreated then [(audioFile, "")] else []
      match env.ffmpegResult with
      | Except.error e => ⟨store1, [], Except.error ("Failed to extract audio: " ++ e)⟩
      | Except.ok _ =>
        if fsExists store1 audioFile = false then
          ⟨store1, [], Except.error ("Failed to extract audio to " ++ audioFile)⟩
        else
          let expectedOutputFile := audioFile ++ ".txt"
          let store2 : FileStore := env.engineWrites ++ store1
          match env.engineResult with
          | Except.error e =>
              ⟨store2, [], Except.error ("Transcription process failed: " ++ e)⟩
          | Except.ok _ =>
            let store3 :=
              if fsExists store2 expectedOutputFile then store2
              else
                match (altOutputPaths audioFile baseName timestamp).find?
                    (fun p => fsExists store2 p) with
                | some p => fsWrite store2 expectedOutputFile (fsRead store2 p)
                | none => store2
            if fsExists store3 expectedOutputFile = false then
              ⟨store3, [], Except.error "Transcription completed but output file not found"⟩
            else
              let transcript := fsRead store3 expectedOutputFile
              let cleaned : FileStore × List String :=
                if env.unlinkOutputFails then (store3, ["Error cleaning up temp files"])
                else
                  let s1 := fsRemove store3 expectedOutputFile
                  if env.unlinkAudioFails then (s1, ["Error cleaning up temp files"])
                  else (fsRemove s1 audioFile, [])
              ⟨cleaned.1, cleaned.2, Except.ok (transcript, MODEL_NAME)⟩

/-- transcribeVideo (transcribe.js lines 703 to 908): the outer catch at
line 904 wraps every thrown error as Transcription failed followed by the
message, performing no cleanup of its own. -/
def transcribeVideo (env : TranscribeEnv) (baseName timestamp : String) :
    TranscribeOutcome :=
  let r := transcribeVideoCore env baseName timestamp
  match r.result with
  | Except.ok v => ⟨r.store, r.warns, Except.ok v⟩
  | Except.error e => ⟨r.store, r.warns, Except.error ("Transcription failed: " ++ e)⟩

/-! ### Concrete environments used by counterexamples and witnesses -/

/-- Environment in which initialization, extraction and the engine all
succeed, the engine writes the expected output file, and both unlinks
succeed. -/
def happyEnv : TranscribeEnv :=
  { initResult := Except.ok true
    ffmpegResult := Except.ok ()
    audioCreated := true
    engineResult := Except.ok ()
    engineWrites := [("clip-42.wav.txt", "hello")]
    unlinkOutputFails := false
    unlinkAudioFails := false }

/-- Environment in which everything up to the engine succeeds but the
engine subprocess exits with an error. -/
def engineFailEnv : TranscribeEnv :=
  { initResult := Except.ok true
    ffmpegResult := Except.ok ()
    audioCreated := true
    engineResult := Except.error "exit code 1"
    engineWrites := []
    unlinkOutputFails := false
    unlinkAudioFails := false }

/-- Environment in which the engine succeeds but writes its transcript
only under the legacy naming convention basename wav txt. -/
def legacyOutputEnv : TranscribeEnv :=
  { initResult := Except.ok true
    ffmpegResult := Except.ok ()
    audioCreated := true
    engineResult := Except.ok ()
    engineWrites := [("clip.wav.txt", "hello world")]
    unlinkOutputFails := false
    unlinkAudioFails := false }

/-- Initialization environment in which the binary exists and answers the
help probe, the model is missing, every model download fails, and the
source, dependency and build steps would succeed. -/
def initEnvCex : InitEnv :=
  { binaryExists := true
    helpProbe := Except.ok ()
    modelExists := false
    downloadResult := Except.error "network down"
    sourceDirExists := false
    hasCMakeLists := false
    removeDirOk := true
    cloneResult := Except.ok ()
    depCheckResult := Except.ok ()
    buildResult := Except.ok () }

/-- Download outcome oracle that fails at every attempt. -/
def failingOutcome : Nat → DlStrategy → Except String Unit :=
  fun _ _ => Except.error "boom"

/-! ### Helper lemmas about the file store -/

theorem lookup_filter_ne (n : String) (s : List (String × String)) :
    List.lookup n (List.filter (fun q => q.1 != n) s) = none := by
  induction s with
  | nil => rfl
  | cons p t ih =>
    by_cases h : p.1 = n
    · simp [List.filter_cons, h, ih]
    · simp only [List.filter_cons]
      rw [if_pos (by simp [bne_iff_ne, h])]
      simp [List.lookup, ih, beq_eq_false_iff_ne.mpr (Ne.symm h)]

theorem lookup_filter_none (n : String) (pred : String × String → Bool)
    (s : List (String × String)) (h : List.lookup n s = none) :
    List.lookup n (List.filter pred s) = none := by
  induction s with
  | nil => rfl
  | cons p t ih =>
    rw [List.lookup] at h
    rcases hbeq : n == p.1 with _ | _
    · rw [hbeq] at h
      by_cases hp : pred p = true
      · rw [List.filter_cons, if_pos hp, List.lookup, hbeq]
        exact ih h
      · rw [List.filter_cons, if_neg hp]
        exact ih h
    · rw [hbeq] at h
      exact absurd h (by simp)

theorem fsExists_fsRemove_self (s : FileStore) (n : String) :
    fsExists (fsRemove s n) n = false := by
  unfold fsExists fsRemove
  rw [lookup_filter_ne]
  rfl

theorem fsExists_fsRemove_of_not (s : FileStore) (m n : String)
    (h : fsExists s n = false) : fsExists (fsRemove s m) n = false := by
  unfold fsExists fsRemove
  unfold fsExists at h
  rw [lookup_filter_none]
  · rfl
  · rcases hl : List.lookup n s with _ | v
    · rfl
    · rw [hl] at h
      exact absurd h (by simp)

theorem fsExists_cons_self (n c : String) (t : FileStore) :
    fsExists ((n, c) :: t) n = true := by
  simp [fsExists, List.lookup]

theorem fsRead_cons_self (n c : String) (t : FileStore) :
    fsRead ((n, c) :: t) n = c := by
  simp [fsRead, List.lookup]

theorem makeRequest_no_location (pre : List HttpResp) :
    ∀ (tail : List HttpResp) (n : Nat), n + pre.length < 5 →
      (∀ r ∈ pre, ∃ l, r = HttpResp.redirect (some l)) →
      makeRequest (pre ++ HttpResp.redirect none :: tail) n 5 =
        (false, Except.error "Redirect with no location header") := by
  induction pre with
  | nil =>
    intro tail n hlen _
    have hn : ¬ 5 ≤ n := by omega
    simp [makeRequest, hn]
  | cons r t ih =>
    intro tail n hlen hpre
    obtain ⟨l, hl⟩ := hpre r (List.mem_cons_self r t)
    subst hl
    have hn : ¬ 5 ≤ n := by omega
    rw [List.cons_append, makeRequest, if_neg hn]
    exact ih tail (n + 1) (by simp at hlen; omega)
      (fun q hq => hpre q (List.mem_cons_of_mem _ hq))

/-! ### Claim theorems -/

/-- C5: binary resolution in initializePaths prefers the current name
whisper-cli over the legacy name main (whisper-cli.exe over whisper.exe
on Windows) whenever the current-name binary exists; when only the
legacy-name binary exists it is selected together with a deprecation
notice in the log, without failing (resolveBinary is total); when
neither exists the current-name path is the default. -/
theorem resolveBinary_precedence (p : Platform) (legacyExists : Bool) :
    (resolveBinary p true legacyExists).binaryName = newBinaryName p ∧
    (resolveBinary p false true).binaryName = legacyBinaryName p ∧
    (resolveBinary p false true).logMsg =
      "Using legacy binary name: " ++ legacyBinaryName p ++
        ", please note that legacy names will be deprecated" ∧
    (resolveBinary p false false).binaryName = newBinaryName p := by
  refine ⟨?_, ?_, ?_, ?_⟩ <;> simp [resolveBinary]

/-- C8: when configure and compile succeed but no binary with either name
variant exists at any candidate location, buildWhisper does not produce
the intended binary-not-found diagnostic listing the checked locations:
the deep search references findBinary, which is not defined in
transcribe.js, so the run fails with the wrapped ReferenceError message
Build failed: findBinary is not defined, indistinguishable in kind from a
compile failure; moreover the intended throw at line 688 is unreachable,
since findAndCopyBinary never returns false. -/
theorem buildWhisper_missing_binary_reference_error :
    buildWhisper (Except.ok ()) (Except.ok ()) (fun _ => false) "/w/build" "/w"
        Platform.darwin =
      Except.error "Build failed: findBinary is not defined" ∧
    (∀ f : String → Bool, ∀ b w : String, ∀ p : Platform,
        findAndCopyBinary f b w p ≠ Except.ok false) := by
  refine ⟨rfl, ?_⟩
  intro f b w p
  unfold findAndCopyBinary
  cases (binaryNames p).findSome? (fun name =>
      ((possibleLocations b w p).find? (fun loc => f (loc ++ "/" ++ name))).map
        (fun loc => loc ++ "/" ++ name)) <;> simp

/-- C4: if the direct download completes but the temp file is absent or
smaller than 1000000 bytes, downloadModelDirect fails with the
too-small error and the file is not copied into the final model path
(the first component, recording the copy into MODEL_PATH, stays false);
conversely the copy happens only for an existing file of at least
1000000 bytes. -/
theorem downloadModelDirect_min_size (chain : List HttpResp) (tempExists : Bool)
    (tempSize : Nat) (h : tempExists = false ∨ tempSize < 1000000) :
    (downloadModelDirect chain tempExists tempSize).1 = false ∧
    ((downloadWithRedirects chain).2 = Except.ok () →
      (downloadModelDirect chain tempExists tempSize).2 =
        Except.error "Downloaded file is too small or doesn\x27t exist") ∧
    (∀ c : List HttpResp, ∀ e : Bool, ∀ s : Nat,
        (downloadModelDirect c e s).1 = true → e = true ∧ 1000000 ≤ s) := by
  refine ⟨?_, ?_, ?_⟩
  · unfold downloadModelDirect
    cases hdl : (downloadWithRedirects chain).2 with
    | error e => rfl
    | ok u => rw [if_pos h]
  · intro hok
    unfold downloadModelDirect
    rw [hok, if_pos h]
  · intro c e s h1
    unfold downloadModelDirect at h1
    cases hdl : (downloadWithRedirects c).2 with
    | error msg => rw [hdl] at h1; exact absurd h1 (by simp)
    | ok u =>
      rw [hdl] at h1
      by_cases hcond : e = false ∨ s < 1000000
      · rw [if_pos hcond] at h1
        exact absurd h1 (by simp)
      · push_neg at hcond
        exact ⟨by simpa using hcond.1, by omega⟩

/-- C4 witness: a download chain that succeeds but leaves a 999999 byte
temp file is rejected and nothing is copied into the model path. -/
theorem downloadModelDirect_min_size_witness :
    (downloadModelDirect [HttpResp.success] true 999999).1 = false ∧
    (downloadModelDirect [HttpResp.success] true 999999).2 =
      Except.error "Downloaded file is too small or doesn\x27t exist" := by
  have h := downloadModelDirect_min_size [HttpResp.success] true 999999
    (Or.inr (by omega))
  exact ⟨h.1, h.2.1 rfl⟩

/-- C10: the python-script download strategy checks only that the
downloaded model file exists and copies it into the final model path
regardless of its size: its result does not depend on the size argument
at all, and a file under 1000000 bytes is accepted by the script path
while the same size is rejected by the direct path. -/
theorem downloadModelWithPythonScript_ignores_size (tempSize : Nat)
    (h : tempSize < 1000000) :
    downloadModelWithPythonScript true true (Except.ok ()) true tempSize =
      (true, Except.ok ()) ∧
    (∀ a b : Bool, ∀ r : Except String Unit, ∀ e : Bool, ∀ s1 s2 : Nat,
        downloadModelWithPythonScript a b r e s1 =
          downloadModelWithPythonScript a b r e s2) ∧
    (downloadModelDirect [HttpResp.success] true tempSize).1 = false := by
  refine ⟨rfl, fun a b r e s1 s2 => rfl, ?_⟩
  unfold downloadModelDirect
  have hdl : (downloadWithRedirects [HttpResp.success]).2 = Except.ok () := rfl
  rw [hdl, if_pos (Or.inr h)]

/-- C10 witness: a 999 byte model file obtained via the script path is
accepted as the model while the direct path would reject it. -/
theorem downloadModelWithPythonScript_ignores_size_witness :
    downloadModelWithPythonScript true true (Except.ok ()) true 999 =
      (true, Except.ok ()) ∧
    (downloadModelDirect [HttpResp.success] true 999).1 = false := by
  have h := downloadModelWithPythonScript_ignores_size 999 (by omega)
  exact ⟨h.1, h.2.2⟩

/-- C3: in the direct model download at most 5 redirects are followed: a
chain issuing a 6th consecutive redirect is rejected with the
too-many-redirects error, and a redirect response without a location
header within the followed window is rejected with the
no-location-header error; in both cases the first component stays false,
recording that the destination file was never written. -/
theorem downloadWithRedirects_bound
    (l0 l1 l2 l3 l4 l5 : String) (rest : List HttpResp)
    (pre tail : List HttpResp)
    (hlen : pre.length < 5)
    (hpre : ∀ r ∈ pre, ∃ l, r = HttpResp.redirect (some l)) :
    downloadWithRedirects
        (HttpResp.redirect (some l0) :: HttpResp.redirect (some l1) ::
          HttpResp.redirect (some l2) :: HttpResp.redirect (some l3) ::
          HttpResp.redirect (some l4) :: HttpResp.redirect (some l5) :: rest) =
      (false, Except.error "Too many redirects (5)") ∧
    downloadWithRedirects (pre ++ HttpResp.redirect none :: tail) =
      (false, Except.error "Redirect with no location header") := by
  constructor
  · rfl
  · exact makeRequest_no_location pre tail 0 (by omega) hpre

/-- C3 witness: six consecutive redirects are rejected with the
too-many-redirects error, and a second redirect lacking a location
header is rejected with the no-location error, in both cases without
writing the file. -/
theorem downloadWithRedirects_bound_witness :
    downloadWithRedirects
        (HttpResp.redirect (some "a") :: HttpResp.redirect (some "b") ::
          HttpResp.redirect (some "c") :: HttpResp.redirect (some "d") ::
          HttpResp.redirect (some "e") :: HttpResp.redirect (some "f") :: []) =
      (false, Except.error "Too many redirects (5)") ∧
    downloadWithRedirects [HttpResp.redirect (some "a"), HttpResp.redirect none] =
      (false, Except.error "Redirect with no location header") := by
  have h := downloadWithRedirects_bound "a" "b" "c" "d" "e" "f" []
    [HttpResp.redirect (some "a")] [] (by decide)
    (by
      intro r hr
      rw [List.mem_singleton] at hr
      exact ⟨"a", hr⟩)
  exact ⟨h.1, h.2⟩

/-- C2: downloadWhisperModel makes at most 3 attempts, listed in order
with attempt 1 using the direct strategy and attempts 2 and 3 the python
script (the attempts trace is always a prefix of that 3-element list);
between consecutive failed attempts it waits attempt times 1000
milliseconds (the waits are always the matching prefix of [1000, 2000]);
and when all 3 attempts fail it fails with a message reporting 3 as the
attempt count and carrying the message of attempt 3. -/
theorem downloadWhisperModel_retry_policy
    (outcome : Nat → DlStrategy → Except String Unit) (e1 e2 e3 : String)
    (h1 : outcome 1 DlStrategy.direct = Except.error e1)
    (h2 : outcome 2 DlStrategy.python = Except.error e2)
    (h3 : outcome 3 DlStrategy.python = Except.error e3) :
    (∀ o : Nat → DlStrategy → Except String Unit,
        (downloadWhisperModel o).1.attempts =
          List.take (downloadWhisperModel o).1.attempts.length
            [(1, DlStrategy.direct), (2, DlStrategy.python), (3, DlStrategy.python)] ∧
        (downloadWhisperModel o).1.waits =
          List.take ((downloadWhisperModel o).1.attempts.length - 1) [1000, 2000]) ∧
    (downloadWhisperModel outcome).1.attempts =
      [(1, DlStrategy.direct), (2, DlStrategy.python), (3, DlStrategy.python)] ∧
    (downloadWhisperModel outcome).1.waits = [1000, 2000] ∧
    (downloadWhisperModel outcome).2 =
      Except.error ("Failed to download model after 3 attempts: " ++ e3) := by
  have hfull : downloadWhisperModel outcome =
      (⟨[(1, DlStrategy.direct), (2, DlStrategy.python), (3, DlStrategy.python)],
        [1000, 2000]⟩,
        Except.error ("Failed to download model after " ++ toString maxRetries ++
          " attempts: " ++ e3)) := by
    simp [downloadWhisperModel, dlLoop, strategyFor, maxRetries, optMessage, h1, h2, h3]
  refine ⟨?_, ?_, ?_, ?_⟩
  · intro o
    cases ho1 : o 1 DlStrategy.direct with
    | ok u =>
      have h : downloadWhisperModel o = (⟨[(1, DlStrategy.direct)], []⟩, Except.ok ()) := by
        cases u
        simp [downloadWhisperModel, dlLoop, strategyFor, ho1]
      rw [h]
      exact ⟨rfl, rfl⟩
    | error e =>
      cases ho2 : o 2 DlStrategy.python with
      | ok u =>
        have h : downloadWhisperModel o =
            (⟨[(1, DlStrategy.direct), (2, DlStrategy.python)], [1000]⟩, Except.ok ()) := by
          cases u
          simp [downloadWhisperModel, dlLoop, strategyFor, maxRetries, ho1, ho2]
        rw [h]
        exact ⟨rfl, rfl⟩
      | error f =>
        cases ho3 : o 3 DlStrategy.python with
        | ok u =>
          have h : downloadWhisperModel o =
              (⟨[(1, DlStrategy.direct), (2, DlStrategy.python), (3, DlStrategy.python)],
                [1000, 2000]⟩, Except.ok ()) := by
            cases u
            simp [downloadWhisperModel, dlLoop, strategyFor, maxRetries, ho1, ho2, ho3]
          rw [h]
          exact ⟨rfl, rfl⟩
        | error g =>
          have h : downloadWhisperModel o =
              (⟨[(1, DlStrategy.direct), (2, DlStrategy.python), (3, DlStrategy.python)],
                [1000, 2000]⟩,
                Except.error ("Failed to download model after " ++ toString maxRetries ++
                  " attempts: " ++ g)) := by
            simp [downloadWhisperModel, dlLoop, strategyFor, maxRetries, optMessage,
              ho1, ho2, ho3]
          rw [h]
          exact ⟨rfl, rfl⟩
  · rw [hfull]
  · rw [hfull]
  · rw [hfull]
    rfl

/-- C2 witness: an outcome oracle failing at every attempt produces the
full three-attempt trace with waits of 1 and 2 seconds and the
exhaustion message reporting 3 attempts. -/
theorem downloadWhisperModel_retry_policy_witness :
    (downloadWhisperModel failingOutcome).1.attempts =
      [(1, DlStrategy.direct), (2, DlStrategy.python), (3, DlStrategy.python)] ∧
    (downloadWhisperModel failingOutcome).1.waits = [1000, 2000] ∧
    (downloadWhisperModel failingOutcome).2 =
      Except.error ("Failed to download model after 3 attempts: " ++ "boom") := by
  have h := downloadWhisperModel_retry_policy failingOutcome "boom" "boom" "boom"
    rfl rfl rfl
  exact ⟨h.2.1, h.2.2.1, h.2.2.2⟩

/-- Auxiliary: probeToolMac touches only the PATH component of the
process environment. -/
theorem probeToolMac_other (works : String → Bool) (tool home : String) (env : ProcEnv) :
    (probeToolMac works tool home env).2.other = env.other := by
  unfold probeToolMac
  cases (macPaths home).find? (fun base => works (base ++ "/" ++ tool)) <;> rfl

/-- C9: on macOS, for each of cmake, make and python3, when the bare
command fails but the tool is found under one of the fixed well-known
directories, checkDependencies prepends that directory to
process.env.PATH; the mutations persist in the environment the checker
hands back (never reset by it), and PATH is the only environment
variable the probe modifies, whatever the oracle and starting
environment. -/
theorem checkDependenciesMac_path_mutation (works : String → Bool) (home : String)
    (env0 : ProcEnv) (bc bm bp : String)
    (hc0 : works "cmake" = false)
    (hc1 : (macPaths home).find? (fun base => works (base ++ "/" ++ "cmake")) = some bc)
    (hm0 : works "make" = false)
    (hm1 : (macPaths home).find? (fun base => works (base ++ "/" ++ "make")) = some bm)
    (hp0 : works "python3" = false)
    (hp1 : works "python" = false)
    (hp2 : (macPaths home).find? (fun base => works (base ++ "/" ++ "python3")) = some bp) :
    (checkDependenciesMac works home env0).1.path =
      bp ++ ":" ++ (bm ++ ":" ++ (bc ++ ":" ++ env0.path)) ∧
    (checkDependenciesMac works home env0).1.other = env0.other ∧
    (∀ w : String → Bool, ∀ h0 : String, ∀ e0 : ProcEnv,
        (checkDependenciesMac w h0 e0).1.other = e0.other) := by
  have hother : ∀ w : String → Bool, ∀ h0 : String, ∀ e0 : ProcEnv,
      (checkDependenciesMac w h0 e0).1.other = e0.other := by
    intro w h0 e0
    cases hcm : w "cmake" <;> cases hmk : w "make" <;>
      cases hpy3 : w "python3" <;> cases hpy : w "python" <;>
        simp [checkDependenciesMac, hcm, hmk, hpy3, hpy, probeToolMac_other]
  refine ⟨?_, hother works home env0, hother⟩
  simp [checkDependenciesMac, probeToolMac, hc0, hc1, hm0, hm1, hp0, hp1, hp2]

/-- C9 witness: with every bare probe failing and each tool found under
the homebrew directory, the returned environment has the three prepended
directories on PATH and unchanged other variables. -/
theorem checkDependenciesMac_path_mutation_witness :
    (checkDependenciesMac
        (fun cmd => cmd == "/opt/homebrew/bin/cmake" || cmd == "/opt/homebrew/bin/make" ||
          cmd == "/opt/homebrew/bin/python3")
        "/Users/u" ⟨"/usr/bin", [("HOME", "/Users/u")]⟩).1.path =
      "/opt/homebrew/bin" ++ ":" ++ ("/opt/homebrew/bin" ++ ":" ++
        ("/opt/homebrew/bin" ++ ":" ++ "/usr/bin")) ∧
    (checkDependenciesMac
        (fun cmd => cmd == "/opt/homebrew/bin/cmake" || cmd == "/opt/homebrew/bin/make" ||
          cmd == "/opt/homebrew/bin/python3")
        "/Users/u" ⟨"/usr/bin", [("HOME", "/Users/u")]⟩).1.other =
      [("HOME", "/Users/u")] := by
  have h := checkDependenciesMac_path_mutation
    (fun cmd => cmd == "/opt/homebrew/bin/cmake" || cmd == "/opt/homebrew/bin/make" ||
      cmd == "/opt/homebrew/bin/python3")
    "/Users/u" ⟨"/usr/bin", [("HOME", "/Users/u")]⟩
    "/opt/homebrew/bin" "/opt/homebrew/bin" "/opt/homebrew/bin"
    rfl (by decide) rfl (by decide) rfl rfl (by decide)
  exact ⟨h.1, h.2.1⟩

/-- C7 (amended): when the engine binary exists, answers the help probe
successfully, and any model download that the branch performs succeeds,
initWhisper returns true after only the directory check, the binary
health check and the model-existence check, downloading the model
exactly when it is missing or forceDownload is set, and performs no
clone, no dependency check and no build. -/
theorem initWhisper_ready_fast_path (env : InitEnv) (force skip : Bool)
    (hb : env.binaryExists = true) (hh : env.helpProbe = Except.ok ())
    (hdl : env.modelExists = false ∨ force = true → env.downloadResult = Except.ok ()) :
    (initWhisper env force skip).2 = Except.ok true ∧
    (initWhisper env force skip).1 =
      [InitAction.ensureDirs, InitAction.binaryHelpProbe] ++
        (if env.modelExists = false ∨ force = true then [InitAction.downloadModel]
          else []) ∧
    InitAction.cloneSource ∉ (initWhisper env force skip).1 ∧
    InitAction.dependencyCheck ∉ (initWhisper env force skip).1 ∧
    InitAction.buildStep ∉ (initWhisper env force skip).1 := by
  by_cases hc : env.modelExists = false ∨ force = true
  · have hdl2 := hdl hc
    have h : initWhisper env force skip =
        ([InitAction.ensureDirs, InitAction.binaryHelpProbe, InitAction.downloadModel],
          Except.ok true) := by
      simp [initWhisper, hb, hh, hc, hdl2]
    rw [h]
    refine ⟨rfl, by simp [hc], by simp, by simp, by simp⟩
  · have h : initWhisper env force skip =
        ([InitAction.ensureDirs, InitAction.binaryHelpProbe], Except.ok true) := by
      simp [initWhisper, hb, hh, hc]
    rw [h]
    refine ⟨rfl, by simp [hc], by simp, by simp, by simp⟩

/-- C7 witness: with the binary healthy and the model already present,
initWhisper performs only the directory check and the binary health
probe and returns true. -/
theorem initWhisper_ready_fast_path_witness :
    (initWhisper { initEnvCex with modelExists := true } false false).2 =
      Except.ok true ∧
    (initWhisper { initEnvCex with modelExists := true } false false).1 =
      [InitAction.ensureDirs, InitAction.binaryHelpProbe] := by
  have h := initWhisper_ready_fast_path { initEnvCex with modelExists := true }
    false false rfl rfl
    (by intro hor; rcases hor with h1 | h1 <;> exact absurd h1 (by decide))
  refine ⟨h.1, ?_⟩
  rw [h.2.1]
  rfl

/-- C7 counterexample: the claim fails as stated.  In initEnvCex the
binary exists and answers the help probe successfully, yet the call
clones the source, runs the dependency check and rebuilds: the model is
missing, and the failing model download is swallowed by the inner catch
of initializeWhisper, which treats it like a failed binary test and
falls through to the source and build path. -/
theorem initWhisper_download_failure_rebuilds :
    initEnvCex.binaryExists = true ∧
    initEnvCex.helpProbe = Except.ok () ∧
    (initWhisper initEnvCex false false).1 =
      [InitAction.ensureDirs, InitAction.binaryHelpProbe, InitAction.downloadModel,
        InitAction.cloneSource, InitAction.dependencyCheck, InitAction.buildStep,
        InitAction.downloadModel] ∧
    InitAction.cloneSource ∈ (initWhisper initEnvCex false false).1 ∧
    InitAction.dependencyCheck ∈ (initWhisper initEnvCex false false).1 ∧
    InitAction.buildStep ∈ (initWhisper initEnvCex false false).1 := by
  refine ⟨rfl, rfl, ?_, ?_, ?_, ?_⟩ <;> decide

/-- C1 counterexample: the claim fails as stated.  When the engine
subprocess fails, transcribeVideo throws, yet the temp audio file
clip-42.wav created by the call remains in the temp directory: no
cleanup runs on the error path. -/
theorem transcribeVideo_wav_remains_on_failure :
    (transcribeVideo engineFailEnv "clip" "42").result =
      Except.error "Transcription failed: Transcription process failed: exit code 1" ∧
    fsExists (transcribeVideo engineFailEnv "clip" "42").store
      (audioFileName "clip" "42") = true := by
  exact ⟨rfl, rfl⟩

/-- C1 (amended): on a successful transcribeVideo call both the temp
audio file and the temp output file are deleted, and a cleanup failure
is only logged as a warning, never escalated (the call still returns its
result); but on a failing call no cleanup is attempted, so the temp wav
file can remain (see the counterexample). -/
theorem transcribeVideo_cleanup_on_success (env : TranscribeEnv) (b t : String)
    (h1 : env.initResult = Except.ok true)
    (h2 : env.ffmpegResult = Except.ok ())
    (h3 : env.audioCreated = true)
    (h4 : env.engineResult = Except.ok ())
    (h5 : fsExists (env.engineWrites ++ [(audioFileName b t, "")])
        (audioFileName b t ++ ".txt") = true) :
    (∃ v, (transcribeVideo env b t).result = Except.ok v) ∧
    (env.unlinkOutputFails = false → env.unlinkAudioFails = false →
      fsExists (transcribeVideo env b t).store (audioFileName b t) = false ∧
      fsExists (transcribeVideo env b t).store (audioFileName b t ++ ".txt") = false ∧
      (transcribeVideo env b t).warns = []) ∧
    ((env.unlinkOutputFails = true ∨ env.unlinkAudioFails = true) →
      (transcribeVideo env b t).warns = ["Error cleaning up temp files"] ∧
      ∃ v, (transcribeVideo env b t).result = Except.ok v) := by
  have hcore : transcribeVideoCore env b t =
      ⟨(if env.unlinkOutputFails then
          ((env.engineWrites ++ [(audioFileName b t, "")] : FileStore),
            ["Error cleaning up temp files"])
        else
          if env.unlinkAudioFails then
            (fsRemove (env.engineWrites ++ [(audioFileName b t, "")])
              (audioFileName b t ++ ".txt"), ["Error cleaning up temp files"])
          else
            (fsRemove (fsRemove (env.engineWrites ++ [(audioFileName b t, "")])
              (audioFileName b t ++ ".txt")) (audioFileName b t), [])).1,
        (if env.unlinkOutputFails then
          ((env.engineWrites ++ [(audioFileName b t, "")] : FileStore),
            ["Error cleaning up temp files"])
        else
          if env.unlinkAudioFails then
            (fsRemove (env.engineWrites ++ [(audioFileName b t, "")])
              (audioFileName b t ++ ".txt"), ["Error cleaning up temp files"])
          else
            (fsRemove (fsRemove (env.engineWrites ++ [(audioFileName b t, "")])
              (audioFileName b t ++ ".txt")) (audioFileName b t), [])).2,
        Except.ok (fsRead (env.engineWrites ++ [(audioFileName b t, "")])
          (audioFileName b t ++ ".txt"), MODEL_NAME)⟩ := by
    simp [transcribeVideoCore, h1, h2, h3, h4, h5, fsExists_cons_self]
  have hres : (transcribeVideo env b t).result =
      Except.ok (fsRead (env.engineWrites ++ [(audioFileName b t, "")])
        (audioFileName b t ++ ".txt"), MODEL_NAME) := by
    simp [transcribeVideo, hcore]
  refine ⟨⟨_, hres⟩, ?_, ?_⟩
  · intro ho ha
    have hstore : (transcribeVideo env b t).store =
        fsRemove (fsRemove (env.engineWrites ++ [(audioFileName b t, "")])
          (audioFileName b t ++ ".txt")) (audioFileName b t) := by
      simp [transcribeVideo, hcore, ho, ha]
    have hwarns : (transcribeVideo env b t).warns = [] := by
      simp [transcribeVideo, hcore, ho, ha]
    rw [hstore]
    refine ⟨fsExists_fsRemove_self _ _, ?_, hwarns⟩
    exact fsExists_fsRemove_of_not _ _ _ (fsExists_fsRemove_self _ _)
  · intro hor
    have hwarns : (transcribeVideo env b t).warns = ["Error cleaning up temp files"] := by
      rcases hor with ho | ha
      · simp [transcribeVideo, hcore, ho]
      · cases ho : env.unlinkOutputFails
        · simp [transcribeVideo, hcore, ho, ha]
        · simp [transcribeVideo, hcore, ho]
    exact ⟨hwarns, ⟨_, hres⟩⟩

/-- C1 witness: a fully successful run on clip-42.wav leaves neither the
temp audio file nor the temp output file behind. -/
theorem transcribeVideo_cleanup_on_success_witness :
    fsExists (transcribeVideo happyEnv "clip" "42").store
      (audioFileName "clip" "42") = false ∧
    fsExists (transcribeVideo happyEnv "clip" "42").store
      (audioFileName "clip" "42" ++ ".txt") = false ∧
    (transcribeVideo happyEnv "clip" "42").warns = [] := by
  have h := transcribeVideo_cleanup_on_success happyEnv "clip" "42"
    rfl rfl rfl rfl (by decide)
  exact h.2.1 rfl rfl

/-- C6: when the expected output file audioFile txt is absent after the
engine ran, the fixed ordered list of alternative output paths is probed
in order; the first existing one is copied to the expected location and
its contents are returned as the transcript together with the model
name; when none of them exists the call throws the fatal output-not-found
error. -/
theorem transcribeVideo_output_recovery (env : TranscribeEnv) (b t : String)
    (h1 : env.initResult = Except.ok true)
    (h2 : env.ffmpegResult = Except.ok ())
    (h3 : env.audioCreated = true)
    (h4 : env.engineResult = Except.ok ())
    (h5 : fsExists (env.engineWrites ++ [(audioFileName b t, "")])
        (audioFileName b t ++ ".txt") = false) :
    (∀ p, (altOutputPaths (audioFileName b t) b t).find?
        (fun q => fsExists (env.engineWrites ++ [(audioFileName b t, "")]) q) = some p →
      (transcribeVideo env b t).result =
        Except.ok (fsRead (env.engineWrites ++ [(audioFileName b t, "")]) p,
          MODEL_NAME)) ∧
    ((altOutputPaths (audioFileName b t) b t).find?
        (fun q => fsExists (env.engineWrites ++ [(audioFileName b t, "")]) q) = none →
      (transcribeVideo env b t).result =
        Except.error "Transcription failed: Transcription completed but output file not found") := by
  constructor
  · intro p hp
    have hcore : (transcribeVideoCore env b t).result =
        Except.ok (fsRead (env.engineWrites ++ [(audioFileName b t, "")]) p,
          MODEL_NAME) := by
      simp [transcribeVideoCore, h1, h2, h3, h4, h5, hp, fsWrite,
        fsExists_cons_self, fsRead_cons_self]
    rcases hv : transcribeVideoCore env b t with ⟨st, ws, r⟩
    rw [hv] at hcore
    simp only at hcore
    simp [transcribeVideo, hv, hcore]
  · intro hn
    have hcore : (transcribeVideoCore env b t).result =
        Except.error "Transcription completed but output file not found" := by
      simp [transcribeVideoCore, h1, h2, h3, h4, h5, hn, fsExists_cons_self]
    rcases hv : transcribeVideoCore env b t with ⟨st, ws, r⟩
    rw [hv] at hcore
    simp only at hcore
    simp [transcribeVideo, hv, hcore]

/-- C6 witness: the engine wrote its transcript only under the legacy
naming convention clip.wav.txt; the call still returns that text with
the model name, by locating the alternative file. -/
theorem transcribeVideo_output_recovery_witness :
    (transcribeVideo legacyOutputEnv "clip" "42").result =
      Except.ok ("hello world", MODEL_NAME) := by
  have h := (transcribeVideo_output_recovery legacyOutputEnv "clip" "42"
    rfl rfl rfl rfl (by decide)).1 "clip.wav.txt" (by decide)
  exact h

end Transcribe
